import Mathlib

/-!
# lkm_xoro: the /dev/xoroshiro128p character device

A shallow embedding of `lkm_xoro.c` (the kernel module) and of the read loop of
`test_xoro.c` (the userspace client).

* The module's globals (`n_opens`, `xoroshiro128p_mutex`, `major_number`,
  `dev_class`, `dev_device`) together with the hidden state of the generator
  object file form one explicit `State`, threaded through every entry point.
* `seed`, `jump` and `next` are only declared `extern` in `lkm_xoro.c`; they are
  taken as a parameter `G : Xoroshiro σ`, so every theorem holds for every
  generator behind those three symbols.
* Kernel services (`mutex_trylock`, `mutex_unlock`, `copy_to_user`, `IS_ERR`,
  `PTR_ERR`, the registration calls) are modelled at their documented contract;
  the outcome of a registration call or of a user-space transfer is an input.
* `printk` only writes to the kernel log and is dropped, except that the
  `n_opens++` inside the `printk` argument list of `dev_open` is kept.
* C `int` arithmetic is `Int` with explicit two's-complement wrapping.
-/

namespace LkmXoro

/-! ## Data model -/

/-- State of `xoroshiro128p_mutex`. -/
inductive Lock where
  | Free
  | Held
  deriving DecidableEq, Repr

/-- The three symbols `lkm_xoro.c` imports from `xoroshiro128plus.o`
(`extern void seed(uint64_t, uint64_t); extern void jump(void);
extern uint64_t next(void);`), as functions of the hidden generator state `σ`
that the object file owns. `next` returns a `uint64_t`. -/
structure Xoroshiro (σ : Type) where
  seed : Nat → Nat → σ → σ
  jump : σ → σ
  next : σ → Nat × σ
  next_lt : ∀ s, (next s).1 < 2 ^ 64

/-- The file-scope variables of `lkm_xoro.c` plus the generator state. -/
structure State (σ : Type) where
  gen : σ
  lock : Lock
  n_opens : Int
  major_number : Int
  dev_class : Nat
  dev_device : Nat

/-- Which generator entry point was called. -/
inductive GenCall where
  | jump
  | next
  deriving DecidableEq, Repr

/-- One call into the generator, together with the state of
`xoroshiro128p_mutex` at the moment the call is made. -/
structure GenEvent where
  call : GenCall
  lock : Lock
  deriving DecidableEq, Repr

/-- A caller-supplied user-space buffer: its current contents and the number of
leading bytes the kernel is able to write (0 for an inaccessible buffer). -/
structure UserBuf where
  bytes : List Nat
  writable : Nat
  deriving DecidableEq, Repr

/-- Result of `dev_open` / `dev_release`: C return value, new globals, and the
generator calls made on the way. -/
structure Result (σ : Type) where
  ret : Int
  st : State σ
  events : List GenEvent

/-- Result of `dev_read`: as `Result`, plus the caller's buffer afterwards. -/
structure ReadResult (σ : Type) where
  ret : Int
  st : State σ
  buffer : UserBuf
  events : List GenEvent

/-! ## Kernel constants and services -/

/-- Linux `EBUSY`. -/
def EBUSY : Int := 16

/-- Linux `EFAULT`. -/
def EFAULT : Int := 14

/-- Linux `MAX_ERRNO`. -/
def MAX_ERRNO : Nat := 4095

/-- Value of a C `int` after an arithmetic result `x` is stored into it
(two's complement, 32 bits; the kernel is built with wrapping signed
arithmetic). -/
def int_wrap (x : Int) : Int := (x + 2 ^ 31) % 2 ^ 32 - 2 ^ 31

/-- Value of a C `long` holding the 64-bit pattern `p`. -/
def long_of_bits (p : Nat) : Int := if p < 2 ^ 63 then (p : Int) else (p : Int) - 2 ^ 64

/-- Kernel `IS_ERR(ptr)`: `(unsigned long)ptr >= (unsigned long)-MAX_ERRNO`. -/
def IS_ERR (ptr : Nat) : Bool := decide (2 ^ 64 - MAX_ERRNO ≤ ptr)

/-- Kernel `PTR_ERR(ptr)`: `(long)ptr`. -/
def PTR_ERR (ptr : Nat) : Int := long_of_bits ptr

/-- Kernel `mutex_trylock`: returns 1 and takes the mutex when it is free,
returns 0 and leaves it alone when it is held. -/
def mutex_trylock (l : Lock) : Nat × Lock :=
  match l with
  | Lock.Free => (1, Lock.Held)
  | Lock.Held => (0, Lock.Held)

/-- Kernel `mutex_unlock`. -/
def mutex_unlock (_l : Lock) : Lock := Lock.Free

/-- Kernel `mutex_init`. -/
def mutex_init (_l : Lock) : Lock := Lock.Free

/-- Kernel `copy_to_user(dst, src, n)`: copies the leading bytes it is able to
write and returns the number of bytes that could not be copied. -/
def copy_to_user (dst : UserBuf) (src : List Nat) (n : Nat) : Nat × UserBuf :=
  let k := min n dst.writable
  (n - k, { dst with bytes := src.take k ++ dst.bytes.drop k })

/-- The object `value` of type `uint64_t` viewed through `(char*)(&value)`:
its eight bytes in memory order, least significant first (little-endian
target, as the client in `test_xoro.c` assumes). -/
def value_bytes (value : Nat) : List Nat :=
  (List.range 8).map (fun i => (value >>> (8 * i)) &&& 0xFF)

/-! ## Entry points of `lkm_xoro.c` -/

/-- The `dev_open` entry point. The `jump()` is recorded with the mutex state at
the time of the call; `n_opens++` is an increment of a C `int`. -/
def dev_open {σ : Type} (G : Xoroshiro σ) (st : State σ) : Result σ :=
  let t := mutex_trylock st.lock
  if t.1 = 0 then
    { ret := -EBUSY, st := { st with lock := t.2 }, events := [] }
  else
    let g := G.jump st.gen
    { ret := 0,
      st := { st with gen := g, lock := t.2, n_opens := int_wrap (st.n_opens + 1) },
      events := [{ call := GenCall.jump, lock := t.2 }] }

/-- The `dev_read` entry point; `filep` and `offset` are unused by the code.
`copy_to_user` returns at most `len_`, which is at most 8, so storing its result
in the `int n_notcopied` and returning `len_` as `ssize_t` keep the values. -/
def dev_read {σ : Type} (G : Xoroshiro σ) (st : State σ) (buffer : UserBuf) (len : Nat) :
    ReadResult σ :=
  let len_ := if len > 8 then 8 else len
  let nx := G.next st.gen
  let value := nx.1
  let cp := copy_to_user buffer (value_bytes value) len_
  let n_notcopied := cp.1
  if 0 ≠ n_notcopied then
    { ret := -EFAULT, st := { st with gen := nx.2 }, buffer := cp.2,
      events := [{ call := GenCall.next, lock := st.lock }] }
  else
    { ret := (len_ : Int), st := { st with gen := nx.2 }, buffer := cp.2,
      events := [{ call := GenCall.next, lock := st.lock }] }

/-- The `dev_release` entry point. -/
def dev_release {σ : Type} (st : State σ) : Result σ :=
  { ret := 0, st := { st with lock := mutex_unlock st.lock }, events := [] }

/-- Outcomes of the three registration calls of `xoro_init`, supplied by the
kernel: the `int` returned by `register_chrdev` and the 64-bit pointer values
returned by `class_create` and `device_create`. -/
structure InitEnv where
  register_chrdev : Int
  class_create : Nat
  device_create : Nat
  deriving DecidableEq, Repr

/-- Calls `xoro_init` makes that acquire, release or initialise something, in
program order, with the arguments that identify the resource. -/
inductive KCall where
  | register_chrdev
  | class_create
  | device_create (cls : Nat) (major : Int)
  | unregister_chrdev (major : Int)
  | class_destroy (cls : Nat)
  | mutex_init
  | seed (a b : Nat)
  deriving DecidableEq, Repr

/-- Result of `xoro_init`: C return value, new globals, calls made. -/
structure InitResult (σ : Type) where
  ret : Int
  st : State σ
  calls : List KCall

/-- The `xoro_init` entry point. -/
def xoro_init {σ : Type} (G : Xoroshiro σ) (env : InitEnv) (st : State σ) : InitResult σ :=
  let st1 := { st with major_number := env.register_chrdev }
  if 0 > st1.major_number then
    { ret := st1.major_number, st := st1, calls := [KCall.register_chrdev] }
  else
    let st2 := { st1 with dev_class := env.class_create }
    if IS_ERR st2.dev_class then
      { ret := int_wrap (PTR_ERR st2.dev_class), st := st2,
        calls := [KCall.register_chrdev, KCall.class_create,
                  KCall.unregister_chrdev st2.major_number] }
    else
      let st3 := { st2 with dev_device := env.device_create }
      if IS_ERR st3.dev_device then
        { ret := int_wrap (PTR_ERR st3.dev_device), st := st3,
          calls := [KCall.register_chrdev, KCall.class_create,
                    KCall.device_create st3.dev_class st3.major_number,
                    KCall.class_destroy st3.dev_class,
                    KCall.unregister_chrdev st3.major_number] }
      else
        let st4 := { st3 with lock := mutex_init st3.lock }
        let st5 := { st4 with gen := G.seed 314159265 1618033989 st4.gen }
        { ret := 0, st := st5,
          calls := [KCall.register_chrdev, KCall.class_create,
                    KCall.device_create st3.dev_class st3.major_number,
                    KCall.mutex_init, KCall.seed 314159265 1618033989] }

/-- The globals as the static initialisers of `lkm_xoro.c` leave them when the
module is loaded (`n_opens = 0`, `DEFINE_MUTEX`, null pointers), around a
generator state `g`. -/
def module_loaded {σ : Type} (g : σ) : State σ :=
  { gen := g, lock := Lock.Free, n_opens := 0, major_number := 0, dev_class := 0,
    dev_device := 0 }

/-! ## The client loop of `test_xoro.c` -/

/-- Contents of `rx` after `zero_rx()`. -/
def zero_rx : List Nat := List.replicate 8 0

/-- The reconstruction loop of `main`: `value_ |= ((uint64_t)b << (8*b_idx))`
for `b_idx` from 0 while `b_idx < n_bytes_read`. -/
def client_value (rx : List Nat) (n_bytes_read : Int) : Nat :=
  (List.range n_bytes_read.toNat).foldl
    (fun value_ b_idx => value_ ||| ((rx.getD b_idx 0 <<< (8 * b_idx)) % 2 ^ 64)) 0

/-! ## Sequences of calls -/

/-- One call into the driver through its `file_operations`. -/
inductive Call where
  | openDev
  | readDev (buffer : UserBuf) (len : Nat)
  | releaseDev
  deriving DecidableEq, Repr

/-- Run a sequence of driver calls, collecting the generator calls made. -/
def run {σ : Type} (G : Xoroshiro σ) : List Call → State σ → List GenEvent × State σ
  | [], st => ([], st)
  | Call.openDev :: cs, st =>
      let r := dev_open G st
      let rest := run G cs r.st
      (r.events ++ rest.1, rest.2)
  | Call.readDev buffer len :: cs, st =>
      let r := dev_read G st buffer len
      let rest := run G cs r.st
      (r.events ++ rest.1, rest.2)
  | Call.releaseDev :: cs, st =>
      let r := dev_release st
      let rest := run G cs r.st
      (r.events ++ rest.1, rest.2)

/-- Any number of consecutive `dev_read` calls, each with its own buffer and
requested length. -/
def read_all {σ : Type} (G : Xoroshiro σ) : List (UserBuf × Nat) → State σ → State σ
  | [], st => st
  | (buffer, len) :: rs, st => read_all G rs (dev_read G st buffer len).st

/-- The caller discipline the file layer imposes on a driver: `read` and
`release` reach the driver only for an open file, that is, after a `dev_open`
that returned 0 and before the matching `dev_release`. `files` counts the open
files. -/
def file_discipline {σ : Type} (G : Xoroshiro σ) : Nat → State σ → List Call → Bool
  | _, _, [] => true
  | files, st, Call.openDev :: cs =>
      let r := dev_open G st
      file_discipline G (if r.ret = 0 then files + 1 else files) r.st cs
  | files, st, Call.readDev buffer len :: cs =>
      decide (0 < files) && file_discipline G files (dev_read G st buffer len).st cs
  | files, st, Call.releaseDev :: cs =>
      decide (0 < files) && file_discipline G (files - 1) (dev_release st).st cs

/-! ## A concrete generator

Concrete input for the closed statements; every general theorem below
quantifies over all generators. -/

/-- Rotate left on 64 bits. -/
def rotl (x k : Nat) : Nat := ((x <<< k) % 2 ^ 64) ||| (x >>> (64 - k))

/-- One step of Blackman and Vigna's xoroshiro128+ on the pair `(s0, s1)`. -/
def sample_next (s : Nat × Nat) : Nat × (Nat × Nat) :=
  let s0 := s.1
  let s1 := s.2 ^^^ s.1
  ((s.1 + s.2) % 2 ^ 64, (rotl s0 24 ^^^ s1 ^^^ ((s1 <<< 16) % 2 ^ 64), rotl s1 37))

/-- The jump polynomial of xoroshiro128+, low word first. -/
def sample_JUMP : List Nat := [0xdf900294d8f554a5, 0x170865df4b3201fc]

/-- The jump of xoroshiro128+: accumulate the states selected by the bits of
the jump polynomial while stepping the generator 128 times. -/
def sample_jump (s : Nat × Nat) : Nat × Nat :=
  let acc := sample_JUMP.foldl
    (fun (a : (Nat × Nat) × (Nat × Nat)) (j : Nat) =>
      (List.range 64).foldl
        (fun (a : (Nat × Nat) × (Nat × Nat)) (b : Nat) =>
          let t := if j &&& (1 <<< b) ≠ 0 then (a.1.1 ^^^ a.2.1, a.1.2 ^^^ a.2.2) else a.1
          (t, (sample_next a.2).2))
        a)
    ((0, 0), s)
  acc.1

/-- An example instance of the generator interface, to evaluate the driver on
concrete inputs: xoroshiro128+ with state `(s0, s1)`, `seed(a, b)` storing the
pair `(a, b)`. The module's own generator is the object file
`xoroshiro128plus.o`, whose code is not part of the sources; nothing below
assumes it is this instance. -/
def sample_generator : Xoroshiro (Nat × Nat) where
  seed := fun a b _ => (a % 2 ^ 64, b % 2 ^ 64)
  jump := sample_jump
  next := sample_next
  next_lt := fun s => Nat.mod_lt _ (by norm_num)

/-- The state right after the module was loaded and `xoro_init` succeeded, for
the sample generator. -/
def sample_state : State (Nat × Nat) :=
  { gen := (314159265, 1618033989), lock := Lock.Free, n_opens := 0, major_number := 240,
    dev_class := 0xffff888000100000, dev_device := 0xffff888000200000 }

/-- A user buffer of eight zero bytes, all writable. -/
def sample_buffer : UserBuf := { bytes := zero_rx, writable := 8 }

/-- The sample state with the session lock held. -/
def sample_held : State (Nat × Nat) := { sample_state with lock := Lock.Held }

/-- The sample state with the open counter at `INT_MAX`. -/
def sample_full : State (Nat × Nat) := { sample_state with n_opens := 2147483647 }

/-- Registration outcomes of a successful load. -/
def sample_env : InitEnv :=
  { register_chrdev := 240, class_create := 0xffff888000100000,
    device_create := 0xffff888000200000 }

/-- Outcomes where `register_chrdev` fails with `-EBUSY`. -/
def sample_env_no_major : InitEnv := { sample_env with register_chrdev := -16 }

/-- Outcomes where `class_create` fails with `ERR_PTR(-ENOMEM)`. -/
def sample_env_no_class : InitEnv := { sample_env with class_create := 2 ^ 64 - 12 }

/-- Outcomes where `device_create` fails with `ERR_PTR(-ENOMEM)`. -/
def sample_env_no_device : InitEnv := { sample_env with device_create := 2 ^ 64 - 12 }

/-! ## The end-to-end scenario -/

/-- Modelled from the spec: the precondition of `seed(a, b)`, a function of
`xoroshiro128plus.o` that the sources only declare: the two words are not both
zero. -/
def seed_precondition (a b : Nat) : Prop := a ≠ 0 ∨ b ≠ 0

/-- The globals after `xoro_init` ran on the freshly loaded module. -/
def after_init {σ : Type} (G : Xoroshiro σ) (env : InitEnv) (g : σ) : State σ :=
  (xoro_init G env (module_loaded g)).st

/-- Session 1: `open`. -/
def session1_open {σ : Type} (G : Xoroshiro σ) (env : InitEnv) (g : σ) : Result σ :=
  dev_open G (after_init G env g)

/-- Session 1: `read(8)` into `b1`. -/
def session1_read8 {σ : Type} (G : Xoroshiro σ) (env : InitEnv) (g : σ) (b1 : UserBuf) :
    ReadResult σ :=
  dev_read G (session1_open G env g).st b1 8

/-- Session 1: `read(4)` into `b2`. -/
def session1_read4 {σ : Type} (G : Xoroshiro σ) (env : InitEnv) (g : σ) (b1 b2 : UserBuf) :
    ReadResult σ :=
  dev_read G (session1_read8 G env g b1).st b2 4

/-- Session 1: `close`. -/
def session1_close {σ : Type} (G : Xoroshiro σ) (env : InitEnv) (g : σ) (b1 b2 : UserBuf) :
    Result σ :=
  dev_release (session1_read4 G env g b1 b2).st

/-- Session 2: `open`. -/
def session2_open {σ : Type} (G : Xoroshiro σ) (env : InitEnv) (g : σ) (b1 b2 : UserBuf) :
    Result σ :=
  dev_open G (session1_close G env g b1 b2).st

/-- Session 2: `read(8)` into `b3`. -/
def session2_read8 {σ : Type} (G : Xoroshiro σ) (env : InitEnv) (g : σ) (b1 b2 b3 : UserBuf) :
    ReadResult σ :=
  dev_read G (session2_open G env g b1 b2).st b3 8

/-! ## Basic facts about the kernel services -/

theorem copy_to_user_fst (dst : UserBuf) (src : List Nat) (n : Nat) :
    (copy_to_user dst src n).1 = n - min n dst.writable := rfl

theorem copy_to_user_bytes (dst : UserBuf) (src : List Nat) (n : Nat) :
    (copy_to_user dst src n).2.bytes
      = src.take (min n dst.writable) ++ dst.bytes.drop (min n dst.writable) := rfl

theorem copy_to_user_complete_iff (dst : UserBuf) (src : List Nat) (n : Nat) :
    (copy_to_user dst src n).1 = 0 ↔ n ≤ dst.writable := by
  rw [copy_to_user_fst]
  omega

theorem len_cap (len : Nat) : (if len > 8 then 8 else len) = min len 8 := by
  split <;> omega

theorem int_wrap_id (x : Int) (lo : -2147483648 ≤ x) (hi : x ≤ 2147483647) :
    int_wrap x = x := by
  unfold int_wrap
  omega

theorem dev_read_st {σ : Type} (G : Xoroshiro σ) (st : State σ) (buffer : UserBuf) (len : Nat) :
    (dev_read G st buffer len).st = { st with gen := (G.next st.gen).2 } := by
  unfold dev_read
  simp only [len_cap]
  split <;> rfl

theorem dev_read_events {σ : Type} (G : Xoroshiro σ) (st : State σ) (buffer : UserBuf)
    (len : Nat) :
    (dev_read G st buffer len).events = [{ call := GenCall.next, lock := st.lock }] := by
  unfold dev_read
  simp only [len_cap]
  split <;> rfl

theorem dev_read_buffer {σ : Type} (G : Xoroshiro σ) (st : State σ) (buffer : UserBuf)
    (len : Nat) :
    (dev_read G st buffer len).buffer
      = (copy_to_user buffer (value_bytes (G.next st.gen).1) (min len 8)).2 := by
  unfold dev_read
  simp only [len_cap]
  split <;> rfl

theorem dev_read_ret {σ : Type} (G : Xoroshiro σ) (st : State σ) (buffer : UserBuf) (len : Nat) :
    (dev_read G st buffer len).ret
      = if (copy_to_user buffer (value_bytes (G.next st.gen).1) (min len 8)).1 = 0
        then ((min len 8 : Nat) : Int) else -EFAULT := by
  unfold dev_read
  simp only [len_cap]
  by_cases h : (copy_to_user buffer (value_bytes (G.next st.gen).1) (min len 8)).1 = 0
  · simp [h]
  · have h2 : 0 ≠ (copy_to_user buffer (value_bytes (G.next st.gen).1) (min len 8)).1 :=
      fun e => h e.symm
    simp [h, h2]

theorem dev_open_of_free {σ : Type} (G : Xoroshiro σ) (st : State σ) (h : st.lock = Lock.Free) :
    (dev_open G st).ret = 0 ∧
    (dev_open G st).st
      = { st with gen := G.jump st.gen, lock := Lock.Held,
                  n_opens := int_wrap (st.n_opens + 1) } ∧
    (dev_open G st).events = [{ call := GenCall.jump, lock := Lock.Held }] := by
  simp [dev_open, mutex_trylock, h]

theorem dev_open_of_held {σ : Type} (G : Xoroshiro σ) (st : State σ) (h : st.lock = Lock.Held) :
    (dev_open G st).ret = -EBUSY ∧ (dev_open G st).st = st ∧ (dev_open G st).events = [] := by
  cases st with
  | mk gen lock n_opens major_number dev_class dev_device =>
    simp only at h
    subst h
    simp [dev_open, mutex_trylock]

theorem read_all_frame {σ : Type} (G : Xoroshiro σ) (reads : List (UserBuf × Nat)) :
    ∀ st : State σ, (read_all G reads st).lock = st.lock ∧
      (read_all G reads st).n_opens = st.n_opens := by
  induction reads with
  | nil => intro st; exact ⟨rfl, rfl⟩
  | cons r rs ih =>
    intro st
    obtain ⟨buffer, len⟩ := r
    have h := ih (dev_read G st buffer len).st
    rw [dev_read_st] at h
    show (read_all G rs (dev_read G st buffer len).st).lock = st.lock ∧
      (read_all G rs (dev_read G st buffer len).st).n_opens = st.n_opens
    rw [dev_read_st]
    exact h

/-! ## The claims -/

/-- C1: for every requested length and every outcome of the transfer,
`dev_read` returns `min(len, 8)` when `copy_to_user` reports 0 bytes not copied
(which is exactly when `min(len, 8)` bytes of the buffer are writable), returns
`-EFAULT` if and only if it reports a non-zero count, and returns nothing else,
so that a result other than `-EFAULT` lies in `0..8`. -/
theorem dev_read_return_value {σ : Type} (G : Xoroshiro σ) (st : State σ) (buffer : UserBuf)
    (len : Nat) :
    ((copy_to_user buffer (value_bytes (G.next st.gen).1) (min len 8)).1 = 0 ↔
        min len 8 ≤ buffer.writable) ∧
    ((copy_to_user buffer (value_bytes (G.next st.gen).1) (min len 8)).1 = 0 →
        (dev_read G st buffer len).ret = ((min len 8 : Nat) : Int)) ∧
    ((dev_read G st buffer len).ret = -EFAULT ↔
        (copy_to_user buffer (value_bytes (G.next st.gen).1) (min len 8)).1 ≠ 0) ∧
    ((dev_read G st buffer len).ret = ((min len 8 : Nat) : Int) ∨
        (dev_read G st buffer len).ret = -14) ∧
    ((dev_read G st buffer len).ret ≠ -EFAULT →
        0 ≤ (dev_read G st buffer len).ret ∧ (dev_read G st buffer len).ret ≤ 8) := by
  have hm : ((min len 8 : Nat) : Int) ≤ 8 := by
    have : min len 8 ≤ 8 := Nat.min_le_right _ _
    exact_mod_cast this
  have hn : (0 : Int) ≤ ((min len 8 : Nat) : Int) := Int.ofNat_nonneg _
  rw [dev_read_ret]
  refine ⟨copy_to_user_complete_iff _ _ _, ?_, ?_, ?_, ?_⟩
  · intro h
    simp [h]
  · by_cases h : (copy_to_user buffer (value_bytes (G.next st.gen).1) (min len 8)).1 = 0
    · simp only [h, if_true, ne_eq, not_true_eq_false, iff_false, EFAULT]
      omega
    · simp [h]
  · by_cases h : (copy_to_user buffer (value_bytes (G.next st.gen).1) (min len 8)).1 = 0
    · simp [h]
    · simp [h, EFAULT]
  · by_cases h : (copy_to_user buffer (value_bytes (G.next st.gen).1) (min len 8)).1 = 0
    · simp only [h, if_true]
      intro _
      exact ⟨hn, hm⟩
    · simp [h]

/-- C3: when `xoroshiro128p_mutex` is held, `dev_open` returns `-EBUSY` (-16)
and changes nothing: the whole state, hence the generator state, the lock and
`n_opens`, is as before, and no generator call is made. -/
theorem dev_open_busy {σ : Type} (G : Xoroshiro σ) (st : State σ) (h : st.lock = Lock.Held) :
    (dev_open G st).ret = -EBUSY ∧ (dev_open G st).ret = -16 ∧
    (dev_open G st).st = st ∧
    (dev_open G st).st.gen = st.gen ∧
    (dev_open G st).st.lock = Lock.Held ∧
    (dev_open G st).st.n_opens = st.n_opens ∧
    (dev_open G st).events = [] := by
  cases st with
  | mk gen lock n_opens major_number dev_class dev_device =>
    simp only at h
    subst h
    simp [dev_open, mutex_trylock, EBUSY]

/-- The hypothesis of `dev_open_busy` holds at the sample state with the lock
held. -/
theorem dev_open_busy_witness :
    sample_held.lock = Lock.Held ∧
    (dev_open sample_generator sample_held).ret = -EBUSY ∧
    (dev_open sample_generator sample_held).ret = -16 ∧
    (dev_open sample_generator sample_held).st = sample_held ∧
    (dev_open sample_generator sample_held).st.gen = sample_held.gen ∧
    (dev_open sample_generator sample_held).st.lock = Lock.Held ∧
    (dev_open sample_generator sample_held).st.n_opens = sample_held.n_opens ∧
    (dev_open sample_generator sample_held).events = [] :=
  ⟨rfl, dev_open_busy sample_generator sample_held rfl⟩

/-- C4 as stated fails: with the lock free and `n_opens` at `INT_MAX`, the
`int` counter after `dev_open` is `INT_MIN`, not the previous value plus 1. -/
theorem dev_open_counter_overflow :
    sample_full.lock = Lock.Free ∧ sample_full.n_opens = 2147483647 ∧
    (dev_open sample_generator sample_full).ret = 0 ∧
    (dev_open sample_generator sample_full).st.n_opens = -2147483648 ∧
    (dev_open sample_generator sample_full).st.n_opens ≠ sample_full.n_opens + 1 := by
  decide

/-- C4 (amended): when the lock is free and the `int` counter `n_opens` is below
`INT_MAX`, `dev_open` returns 0, leaves the lock held, the generator state equal
to one `jump()` of the previous state (the only generator call made is that
`jump`, no `next`), and `n_opens` larger by exactly 1; the other globals are
untouched. -/
theorem dev_open_success {σ : Type} (G : Xoroshiro σ) (st : State σ)
    (h : st.lock = Lock.Free) (lo : -2147483648 ≤ st.n_opens) (hi : st.n_opens < 2147483647) :
    (dev_open G st).ret = 0 ∧
    (dev_open G st).st.lock = Lock.Held ∧
    (dev_open G st).st.gen = G.jump st.gen ∧
    (dev_open G st).events = [{ call := GenCall.jump, lock := Lock.Held }] ∧
    (dev_open G st).st.n_opens = st.n_opens + 1 ∧
    (dev_open G st).st
      = { st with gen := G.jump st.gen, lock := Lock.Held, n_opens := st.n_opens + 1 } := by
  have hw : int_wrap (st.n_opens + 1) = st.n_opens + 1 := int_wrap_id _ (by omega) (by omega)
  simp [dev_open, mutex_trylock, h, hw]

/-- The hypotheses of `dev_open_success` hold at the sample state. -/
theorem dev_open_success_witness :
    (dev_open sample_generator sample_state).ret = 0 ∧
    (dev_open sample_generator sample_state).st.lock = Lock.Held ∧
    (dev_open sample_generator sample_state).st.gen = sample_generator.jump sample_state.gen ∧
    (dev_open sample_generator sample_state).events
      = [{ call := GenCall.jump, lock := Lock.Held }] ∧
    (dev_open sample_generator sample_state).st.n_opens = sample_state.n_opens + 1 ∧
    (dev_open sample_generator sample_state).st
      = { sample_state with gen := sample_generator.jump sample_state.gen, lock := Lock.Held,
                            n_opens := sample_state.n_opens + 1 } :=
  dev_open_success sample_generator sample_state rfl (by decide) (by decide)

/-- C5: for every requested length and every buffer (writable or not), one
`dev_read` makes exactly one generator call, a `next()`, so the generator state
afterwards is the state `next()` leaves from the previous one, and the lock,
`n_opens` and the other globals are unchanged; this holds also when the result
is `-EFAULT`, and `dev_read` with length 0 returns 0, leaves the buffer as it
was and still advances the generator. -/
theorem dev_read_advances_once {σ : Type} (G : Xoroshiro σ) (st : State σ) (buffer : UserBuf)
    (len : Nat) :
    (dev_read G st buffer len).st.gen = (G.next st.gen).2 ∧
    (dev_read G st buffer len).events = [{ call := GenCall.next, lock := st.lock }] ∧
    (dev_read G st buffer len).st.lock = st.lock ∧
    (dev_read G st buffer len).st.n_opens = st.n_opens ∧
    (dev_read G st buffer len).st = { st with gen := (G.next st.gen).2 } ∧
    ((dev_read G st buffer len).ret = -EFAULT →
        (dev_read G st buffer len).st.gen = (G.next st.gen).2) ∧
    ((dev_read G st buffer 0).ret = 0 ∧ (dev_read G st buffer 0).buffer = buffer ∧
        (dev_read G st buffer 0).st.gen = (G.next st.gen).2) := by
  refine ⟨by rw [dev_read_st], dev_read_events G st buffer len, by rw [dev_read_st],
    by rw [dev_read_st], dev_read_st G st buffer len, fun _ => by rw [dev_read_st], ?_, ?_,
    by rw [dev_read_st]⟩
  · rw [dev_read_ret]
    simp [copy_to_user_fst]
  · rw [dev_read_buffer]
    simp [copy_to_user]

/-- C6: for every state, whatever the lock was and whoever calls, `dev_release`
returns 0 and leaves the lock free; the generator state, `n_opens` and the other
globals are unchanged and no generator call is made. The outcome does not depend
on the prior lock state. -/
theorem dev_release_frees {σ : Type} (st : State σ) (l : Lock) :
    (dev_release st).ret = 0 ∧
    (dev_release st).st.lock = Lock.Free ∧
    (dev_release st).st.gen = st.gen ∧
    (dev_release st).st.n_opens = st.n_opens ∧
    (dev_release st).st = { st with lock := Lock.Free } ∧
    (dev_release st).events = [] ∧
    (dev_release { st with lock := l }).st = (dev_release st).st ∧
    (dev_release { st with lock := l }).ret = (dev_release st).ret :=
  ⟨rfl, rfl, rfl, rfl, rfl, rfl, rfl, rfl⟩


theorem or_byte (w k : Nat) :
    (w % 2 ^ k) ||| (((w >>> k) &&& 0xFF) <<< k) = w % 2 ^ (k + 8) := by
  apply Nat.eq_of_testBit_eq
  intro i
  have h255 : (0xFF : Nat) = 2 ^ 8 - 1 := by norm_num
  rw [h255]
  simp only [Nat.testBit_or, Nat.testBit_mod_two_pow, Nat.testBit_shiftLeft, Nat.testBit_and,
    Nat.testBit_shiftRight, Nat.testBit_two_pow_sub_one]
  by_cases h1 : i < k
  · have h2 : i < k + 8 := by omega
    have h3 : ¬ (i ≥ k) := by omega
    simp [h1, h2, h3]
  · have h3 : i ≥ k := by omega
    by_cases h2 : i < k + 8
    · have h4 : i - k < 8 := by omega
      have h5 : k + (i - k) = i := by omega
      simp [h1, h2, h3, h4, h5]
    · have h4 : ¬ (i - k < 8) := by omega
      simp [h1, h2, h3, h4]

theorem byte_lt (w k : Nat) : ((w >>> k) &&& 0xFF) < 256 := by
  have h255 : (0xFF : Nat) = 2 ^ 8 - 1 := by norm_num
  rw [h255, Nat.and_pow_two_sub_one_eq_mod]
  exact Nat.mod_lt _ (by norm_num)

theorem value_bytes_length (w : Nat) : (value_bytes w).length = 8 := by
  simp [value_bytes]

theorem value_bytes_getD (w i : Nat) (h : i < 8) :
    (value_bytes w).getD i 0 = (w >>> (8 * i)) &&& 0xFF := by
  unfold value_bytes
  rw [List.getD_eq_getElem _ _ (by simpa using h)]
  simp

theorem copied_getD (w : Nat) (rest : List Nat) (n i : Nat) (hn : n ≤ 8) (hi : i < n) :
    ((value_bytes w).take n ++ rest).getD i 0 = (w >>> (8 * i)) &&& 0xFF := by
  have hl : i < ((value_bytes w).take n).length := by
    rw [List.length_take, value_bytes_length]
    omega
  rw [List.getD_eq_getElem _ _ (by rw [List.length_append]; omega)]
  rw [List.getElem_append_left hl, List.getElem_take]
  rw [← value_bytes_getD w i (by omega)]
  rw [List.getD_eq_getElem _ _ (by rw [value_bytes_length]; omega)]

theorem client_value_eq (rx : List Nat) (w : Nat) :
    ∀ n : Nat, n ≤ 8 → (∀ i, i < n → rx.getD i 0 = (w >>> (8 * i)) &&& 0xFF) →
      client_value rx (n : Int) = w % 2 ^ (8 * n) := by
  intro n
  induction n with
  | zero =>
    intro _ _
    simp [client_value, Nat.mod_one]
  | succ n ih =>
    intro hn hb
    have ihn := ih (by omega) (fun i hi => hb i (by omega))
    unfold client_value at ihn ⊢
    simp only [Int.toNat_ofNat] at ihn ⊢
    rw [List.range_succ, List.foldl_append, ihn]
    simp only [List.foldl_cons, List.foldl_nil]
    rw [hb n (by omega)]
    have hlt : (((w >>> (8 * n)) &&& 0xFF) <<< (8 * n)) < 2 ^ 64 := by
      rw [Nat.shiftLeft_eq]
      have h1 := byte_lt w (8 * n)
      have h2 : 2 ^ (8 * n) * 256 ≤ 2 ^ 64 := by
        have : 2 ^ (8 * n) * 256 = 2 ^ (8 * n + 8) := by rw [pow_add]; norm_num
        rw [this]
        exact Nat.pow_le_pow_right (by norm_num) (by omega)
      calc ((w >>> (8 * n)) &&& 0xFF) * 2 ^ (8 * n)
          < 256 * 2 ^ (8 * n) := Nat.mul_lt_mul_of_pos_right h1 (Nat.two_pow_pos _)
        _ = 2 ^ (8 * n) * 256 := Nat.mul_comm _ _
        _ ≤ 2 ^ 64 := h2
    rw [Nat.mod_eq_of_lt hlt, or_byte]
    congr 1

/-- C2: for every generator state and requested length, when `copy_to_user`
reports 0 bytes not copied, byte `i` of the caller's buffer equals
`(w >> (8*i)) & 0xFF` for every `i < min(len, 8)`, where `w` is the word
`next()` returns from the state before the read; the buffer starts with the
first `min(len, 8)` bytes of the little-endian encoding of `w`, the rest of the
buffer is untouched, and the client's reconstruction of `value_` over the
returned byte count equals `w mod 2^(8*min(len, 8))`. -/
theorem dev_read_bytes {σ : Type} (G : Xoroshiro σ) (st : State σ) (buffer : UserBuf)
    (len : Nat)
    (h : (copy_to_user buffer (value_bytes (G.next st.gen).1) (min len 8)).1 = 0) :
    (∀ i, i < min len 8 →
        (dev_read G st buffer len).buffer.bytes.getD i 0
          = ((G.next st.gen).1 >>> (8 * i)) &&& 0xFF) ∧
    (dev_read G st buffer len).buffer.bytes
      = (value_bytes (G.next st.gen).1).take (min len 8) ++ buffer.bytes.drop (min len 8) ∧
    client_value (dev_read G st buffer len).buffer.bytes (dev_read G st buffer len).ret
      = (G.next st.gen).1 % 2 ^ (8 * min len 8) ∧
    (8 ≤ len →
      client_value (dev_read G st buffer len).buffer.bytes (dev_read G st buffer len).ret
        = (G.next st.gen).1) := by
  have hw : min len 8 ≤ buffer.writable := (copy_to_user_complete_iff _ _ _).1 h
  have hk : min (min len 8) buffer.writable = min len 8 := Nat.min_eq_left hw
  have hb : (dev_read G st buffer len).buffer.bytes
      = (value_bytes (G.next st.gen).1).take (min len 8) ++ buffer.bytes.drop (min len 8) := by
    rw [dev_read_buffer, copy_to_user_bytes, hk]
  have hr : (dev_read G st buffer len).ret = ((min len 8 : Nat) : Int) := by
    rw [dev_read_ret, if_pos h]
  have hbyte : ∀ i, i < min len 8 →
      (dev_read G st buffer len).buffer.bytes.getD i 0
        = ((G.next st.gen).1 >>> (8 * i)) &&& 0xFF := by
    intro i hi
    rw [hb]
    exact copied_getD _ _ _ _ (Nat.min_le_right _ _) hi
  have hv : client_value (dev_read G st buffer len).buffer.bytes (dev_read G st buffer len).ret
      = (G.next st.gen).1 % 2 ^ (8 * min len 8) := by
    rw [hr]
    exact client_value_eq _ _ _ (Nat.min_le_right _ _) hbyte
  refine ⟨hbyte, hb, hv, ?_⟩
  intro h8
  rw [hv, Nat.min_eq_right h8]
  exact Nat.mod_eq_of_lt (G.next_lt st.gen)

/-- The hypothesis of `dev_read_bytes` holds for a 3-byte read into a writable
buffer. -/
theorem dev_read_bytes_witness :
    (∀ i, i < min 3 8 →
        (dev_read sample_generator sample_state sample_buffer 3).buffer.bytes.getD i 0
          = ((sample_generator.next sample_state.gen).1 >>> (8 * i)) &&& 0xFF) ∧
    (dev_read sample_generator sample_state sample_buffer 3).buffer.bytes
      = (value_bytes (sample_generator.next sample_state.gen).1).take (min 3 8)
          ++ sample_buffer.bytes.drop (min 3 8) ∧
    client_value (dev_read sample_generator sample_state sample_buffer 3).buffer.bytes
        (dev_read sample_generator sample_state sample_buffer 3).ret
      = (sample_generator.next sample_state.gen).1 % 2 ^ (8 * min 3 8) :=
  have t := dev_read_bytes sample_generator sample_state sample_buffer 3 (by decide)
  ⟨t.1, t.2.1, t.2.2.1⟩

/-- C7 as stated fails: from a state with the lock free and `n_opens` at
`INT_MAX`, the sequence open, close, open succeeds at both opens, but the `int`
counter ends at `INT_MIN + 1`, not at its initial value plus 2. -/
theorem lifecycle_counter_overflow :
    sample_full.lock = Lock.Free ∧
    (dev_open sample_generator sample_full).ret = 0 ∧
    (dev_open sample_generator
      (dev_release (read_all sample_generator [] (dev_open sample_generator sample_full).st)).st).ret
      = 0 ∧
    (dev_open sample_generator
      (dev_release (read_all sample_generator [] (dev_open sample_generator sample_full).st)).st
      ).st.n_opens = -2147483647 ∧
    (dev_open sample_generator
      (dev_release (read_all sample_generator [] (dev_open sample_generator sample_full).st)).st
      ).st.n_opens ≠ sample_full.n_opens + 2 := by
  decide

/-- C7 (amended): from any state with the lock free whose `int` counter
`n_opens` is at most `INT_MAX - 2`, the sequence `dev_open`; any number of
`dev_read` calls; `dev_release`; `dev_open` succeeds at both opens, the lock
goes Free, Held, (Held through the reads), Free, Held, and `n_opens` after the
second open is its initial value plus exactly 2: plus 1 at each successful open
and unchanged by the reads, by the release and by an open refused with
`-EBUSY` during the session. -/
theorem session_lifecycle {σ : Type} (G : Xoroshiro σ) (st : State σ)
    (reads : List (UserBuf × Nat))
    (h : st.lock = Lock.Free) (lo : -2147483648 ≤ st.n_opens) (hi : st.n_opens ≤ 2147483645) :
    (dev_open G st).ret = 0 ∧
    (dev_open G st).st.lock = Lock.Held ∧
    (dev_open G st).st.n_opens = st.n_opens + 1 ∧
    (read_all G reads (dev_open G st).st).lock = Lock.Held ∧
    (read_all G reads (dev_open G st).st).n_opens = st.n_opens + 1 ∧
    (dev_open G (read_all G reads (dev_open G st).st)).ret = -EBUSY ∧
    (dev_open G (read_all G reads (dev_open G st).st)).st.n_opens = st.n_opens + 1 ∧
    (dev_release (read_all G reads (dev_open G st).st)).ret = 0 ∧
    (dev_release (read_all G reads (dev_open G st).st)).st.lock = Lock.Free ∧
    (dev_release (read_all G reads (dev_open G st).st)).st.n_opens = st.n_opens + 1 ∧
    (dev_open G (dev_release (read_all G reads (dev_open G st).st)).st).ret = 0 ∧
    (dev_open G (dev_release (read_all G reads (dev_open G st).st)).st).st.lock = Lock.Held ∧
    (dev_open G (dev_release (read_all G reads (dev_open G st).st)).st).st.n_opens
      = st.n_opens + 2 := by
  obtain ⟨o1r, o1s, -⟩ := dev_open_of_free G st h
  have w1 : int_wrap (st.n_opens + 1) = st.n_opens + 1 := int_wrap_id _ (by omega) (by omega)
  have l1 : (dev_open G st).st.lock = Lock.Held := by rw [o1s]
  have n1 : (dev_open G st).st.n_opens = st.n_opens + 1 := by rw [o1s]; exact w1
  obtain ⟨rl, rn⟩ := read_all_frame G reads (dev_open G st).st
  rw [l1] at rl
  rw [n1] at rn
  obtain ⟨br, bs, -⟩ := dev_open_of_held G _ rl
  have cl : (dev_release (read_all G reads (dev_open G st).st)).st.lock = Lock.Free := rfl
  have cn : (dev_release (read_all G reads (dev_open G st).st)).st.n_opens = st.n_opens + 1 := rn
  obtain ⟨o2r, o2s, -⟩ := dev_open_of_free G _ cl
  have w2 : int_wrap (st.n_opens + 1 + 1) = st.n_opens + 2 := by
    rw [int_wrap_id _ (by omega) (by omega)]
    omega
  refine ⟨o1r, l1, n1, rl, rn, br, ?_, rfl, cl, cn, o2r, ?_, ?_⟩
  · rw [bs]; exact rn
  · rw [o2s]
  · rw [o2s]
    show int_wrap ((dev_release (read_all G reads (dev_open G st).st)).st.n_opens + 1) = _
    rw [cn]
    exact w2

/-- The hypotheses of `session_lifecycle` hold at the sample state, here with
two reads in the session. -/
theorem session_lifecycle_witness :
    (dev_open sample_generator sample_state).ret = 0 ∧
    (dev_open sample_generator
      (dev_release (read_all sample_generator [(sample_buffer, 8), (sample_buffer, 4)]
        (dev_open sample_generator sample_state).st)).st).ret = 0 ∧
    (dev_open sample_generator
      (dev_release (read_all sample_generator [(sample_buffer, 8), (sample_buffer, 4)]
        (dev_open sample_generator sample_state).st)).st).st.n_opens
      = sample_state.n_opens + 2 :=
  have t := session_lifecycle sample_generator sample_state
    [(sample_buffer, 8), (sample_buffer, 4)] rfl (by decide) (by decide)
  ⟨t.1, t.2.2.2.2.2.2.2.2.2.2.1, t.2.2.2.2.2.2.2.2.2.2.2.2⟩

theorem after_init_of_success {σ : Type} (G : Xoroshiro σ) (env : InitEnv) (st : State σ)
    (h1 : 0 ≤ env.register_chrdev) (h2 : IS_ERR env.class_create = false)
    (h3 : IS_ERR env.device_create = false) :
    (xoro_init G env st).ret = 0 ∧
    (xoro_init G env st).st
      = { gen := G.seed 314159265 1618033989 st.gen, lock := Lock.Free, n_opens := st.n_opens,
          major_number := env.register_chrdev, dev_class := env.class_create,
          dev_device := env.device_create } ∧
    (xoro_init G env st).calls
      = [KCall.register_chrdev, KCall.class_create,
         KCall.device_create env.class_create env.register_chrdev,
         KCall.mutex_init, KCall.seed 314159265 1618033989] := by
  have h1n : ¬ (env.register_chrdev < 0) := by omega
  simp [xoro_init, h1n, h2, h3, mutex_init]

theorem read_full_bytes (w : Nat) (rest : List Nat) :
    (value_bytes w).take 8 ++ rest = value_bytes w ++ rest := by
  rw [List.take_of_length_le (by rw [value_bytes_length])]

theorem dev_read_getD {σ : Type} (G : Xoroshiro σ) (st : State σ) (buffer : UserBuf)
    (len : Nat)
    (h : (copy_to_user buffer (value_bytes (G.next st.gen).1) (min len 8)).1 = 0) :
    ∀ i, i < min len 8 →
      (dev_read G st buffer len).buffer.bytes.getD i 0
        = ((G.next st.gen).1 >>> (8 * i)) &&& 0xFF := by
  intro i hi
  have hw : min len 8 ≤ buffer.writable := (copy_to_user_complete_iff _ _ _).1 h
  rw [dev_read_buffer, copy_to_user_bytes, Nat.min_eq_left hw]
  exact copied_getD _ _ _ _ (Nat.min_le_right _ _) hi

theorem dev_read_client_value {σ : Type} (G : Xoroshiro σ) (st : State σ) (buffer : UserBuf)
    (len : Nat)
    (h : (copy_to_user buffer (value_bytes (G.next st.gen).1) (min len 8)).1 = 0) :
    client_value (dev_read G st buffer len).buffer.bytes (dev_read G st buffer len).ret
      = (G.next st.gen).1 % 2 ^ (8 * min len 8) := by
  rw [dev_read_ret, if_pos h]
  exact client_value_eq _ _ _ (Nat.min_le_right _ _) (dev_read_getD G st buffer len h)

/-- C8: after a successful `xoro_init` on the freshly loaded module the
generator state is the one `seed(314159265, 1618033989)` leaves; then open,
read(8), read(4), close, open, read(8), with every transfer completing, gives:
the first read returns 8 and byte `i` of its buffer is `(V1 >> (8*i)) & 0xFF`
for every `i < 8`, the little-endian encoding of `V1`, the word `next()`
returns from `jump` of the seeded state, so the client reconstructs `V1`; the
second read returns 4 and byte `i` of its buffer is `(V2 >> (8*i)) & 0xFF` for
every `i < 4`, the low 4 bytes of `V2`, the word the following `next()` returns
(from the state the first `next()` left), so the client reconstructs
`V2 mod 2^32`, and the buffer beyond those 4 bytes is untouched; the read of
session 2 returns 8 and byte `i` of its buffer is `(V3 >> (8*i)) & 0xFF` for
every `i < 8`, where `V3` is the word `next()` returns from `jump` applied to
the state left by the two `next()` calls of session 1. Both opens and the close
return 0. -/
theorem end_to_end_scenario {σ : Type} (G : Xoroshiro σ) (env : InitEnv) (g : σ)
    (b1 b2 b3 : UserBuf)
    (h1 : 0 ≤ env.register_chrdev) (h2 : IS_ERR env.class_create = false)
    (h3 : IS_ERR env.device_create = false)
    (w1 : 8 ≤ b1.writable) (w2 : 4 ≤ b2.writable) (w3 : 8 ≤ b3.writable) :
    (xoro_init G env (module_loaded g)).ret = 0 ∧
    (after_init G env g).gen = G.seed 314159265 1618033989 g ∧
    (session1_open G env g).ret = 0 ∧
    (session1_read8 G env g b1).ret = 8 ∧
    (∀ i, i < 8 →
      (session1_read8 G env g b1).buffer.bytes.getD i 0
        = ((G.next (G.jump (G.seed 314159265 1618033989 g))).1 >>> (8 * i)) &&& 0xFF) ∧
    client_value (session1_read8 G env g b1).buffer.bytes (session1_read8 G env g b1).ret
      = (G.next (G.jump (G.seed 314159265 1618033989 g))).1 ∧
    (session1_read8 G env g b1).buffer.bytes
      = value_bytes (G.next (G.jump (G.seed 314159265 1618033989 g))).1 ++ b1.bytes.drop 8 ∧
    (session1_read4 G env g b1 b2).ret = 4 ∧
    (∀ i, i < 4 →
      (session1_read4 G env g b1 b2).buffer.bytes.getD i 0
        = ((G.next (G.next (G.jump (G.seed 314159265 1618033989 g))).2).1
            >>> (8 * i)) &&& 0xFF) ∧
    client_value (session1_read4 G env g b1 b2).buffer.bytes
        (session1_read4 G env g b1 b2).ret
      = (G.next (G.next (G.jump (G.seed 314159265 1618033989 g))).2).1 % 2 ^ 32 ∧
    (session1_read4 G env g b1 b2).buffer.bytes
      = (value_bytes (G.next (G.next (G.jump (G.seed 314159265 1618033989 g))).2).1).take 4
          ++ b2.bytes.drop 4 ∧
    (session1_close G env g b1 b2).ret = 0 ∧
    (session2_open G env g b1 b2).ret = 0 ∧
    (session2_read8 G env g b1 b2 b3).ret = 8 ∧
    (∀ i, i < 8 →
      (session2_read8 G env g b1 b2 b3).buffer.bytes.getD i 0
        = ((G.next (G.jump (G.next (G.next (G.jump (G.seed 314159265 1618033989 g))).2).2)).1
            >>> (8 * i)) &&& 0xFF) ∧
    client_value (session2_read8 G env g b1 b2 b3).buffer.bytes
        (session2_read8 G env g b1 b2 b3).ret
      = (G.next (G.jump (G.next (G.next (G.jump (G.seed 314159265 1618033989 g))).2).2)).1 ∧
    (session2_read8 G env g b1 b2 b3).buffer.bytes
      = value_bytes
          (G.next (G.jump (G.next (G.next (G.jump (G.seed 314159265 1618033989 g))).2).2)).1
        ++ b3.bytes.drop 8 := by
  obtain ⟨ir, is, -⟩ := after_init_of_success G env (module_loaded g) h1 h2 h3
  have s0 : after_init G env g
      = { gen := G.seed 314159265 1618033989 g, lock := Lock.Free, n_opens := 0,
          major_number := env.register_chrdev, dev_class := env.class_create,
          dev_device := env.device_create } := is
  have o1 := dev_open_of_free G (after_init G env g) (by rw [s0])
  have g1 : (session1_open G env g).st.gen = G.jump (G.seed 314159265 1618033989 g) := by
    unfold session1_open
    rw [o1.2.1, s0]
  have l1 : (session1_open G env g).st.lock = Lock.Held := by
    unfold session1_open
    rw [o1.2.1]
  have c1 : (copy_to_user b1 (value_bytes (G.next (session1_open G env g).st.gen).1)
      (min 8 8)).1 = 0 := (copy_to_user_complete_iff _ _ _).2 (by simpa using w1)
  have r1 : (session1_read8 G env g b1).ret = 8 := by
    unfold session1_read8
    rw [dev_read_ret, if_pos c1]
    rfl
  have b1e : (session1_read8 G env g b1).buffer.bytes
      = value_bytes (G.next (G.jump (G.seed 314159265 1618033989 g))).1 ++ b1.bytes.drop 8 := by
    unfold session1_read8
    rw [dev_read_buffer, copy_to_user_bytes, g1]
    have : min (min 8 8) b1.writable = 8 := by simp [w1]
    rw [this, read_full_bytes]
  have g2 : (session1_read8 G env g b1).st.gen
      = (G.next (G.jump (G.seed 314159265 1618033989 g))).2 := by
    unfold session1_read8
    rw [dev_read_st, g1]
  have l2 : (session1_read8 G env g b1).st.lock = Lock.Held := by
    unfold session1_read8
    rw [dev_read_st]
    exact l1
  have c2 : (copy_to_user b2 (value_bytes (G.next (session1_read8 G env g b1).st.gen).1)
      (min 4 8)).1 = 0 := (copy_to_user_complete_iff _ _ _).2 (by simpa using w2)
  have r2 : (session1_read4 G env g b1 b2).ret = 4 := by
    unfold session1_read4
    rw [dev_read_ret, if_pos c2]
    rfl
  have b2e : (session1_read4 G env g b1 b2).buffer.bytes
      = (value_bytes (G.next (G.next (G.jump (G.seed 314159265 1618033989 g))).2).1).take 4
          ++ b2.bytes.drop 4 := by
    unfold session1_read4
    rw [dev_read_buffer, copy_to_user_bytes, g2]
    have : min (min 4 8) b2.writable = 4 := by simp [w2]
    rw [this]
  have g3 : (session1_read4 G env g b1 b2).st.gen
      = (G.next (G.next (G.jump (G.seed 314159265 1618033989 g))).2).2 := by
    unfold session1_read4
    rw [dev_read_st, g2]
  have g4 : (session1_close G env g b1 b2).st.gen
      = (G.next (G.next (G.jump (G.seed 314159265 1618033989 g))).2).2 := g3
  have l4 : (session1_close G env g b1 b2).st.lock = Lock.Free := rfl
  have o2 := dev_open_of_free G (session1_close G env g b1 b2).st l4
  have g5 : (session2_open G env g b1 b2).st.gen
      = G.jump (G.next (G.next (G.jump (G.seed 314159265 1618033989 g))).2).2 := by
    unfold session2_open
    rw [o2.2.1]
    show G.jump (session1_close G env g b1 b2).st.gen = _
    rw [g4]
  have c3 : (copy_to_user b3 (value_bytes (G.next (session2_open G env g b1 b2).st.gen).1)
      (min 8 8)).1 = 0 := (copy_to_user_complete_iff _ _ _).2 (by simpa using w3)
  have r3 : (session2_read8 G env g b1 b2 b3).ret = 8 := by
    unfold session2_read8
    rw [dev_read_ret, if_pos c3]
    rfl
  have b3e : (session2_read8 G env g b1 b2 b3).buffer.bytes
      = value_bytes
          (G.next (G.jump
            (G.next (G.next (G.jump (G.seed 314159265 1618033989 g))).2).2)).1
        ++ b3.bytes.drop 8 := by
    unfold session2_read8
    rw [dev_read_buffer, copy_to_user_bytes, g5]
    have : min (min 8 8) b3.writable = 8 := by simp [w3]
    rw [this, read_full_bytes]
  have d1 : ∀ i, i < 8 →
      (session1_read8 G env g b1).buffer.bytes.getD i 0
        = ((G.next (G.jump (G.seed 314159265 1618033989 g))).1 >>> (8 * i)) &&& 0xFF := by
    intro i hi
    have t := dev_read_getD G (session1_open G env g).st b1 8 c1 i (by simpa using hi)
    rw [g1] at t
    exact t
  have v1 : client_value (session1_read8 G env g b1).buffer.bytes
      (session1_read8 G env g b1).ret = (G.next (G.jump (G.seed 314159265 1618033989 g))).1 := by
    have t := dev_read_client_value G (session1_open G env g).st b1 8 c1
    rw [g1] at t
    unfold session1_read8
    rw [t]
    exact Nat.mod_eq_of_lt (G.next_lt _)
  have d2 : ∀ i, i < 4 →
      (session1_read4 G env g b1 b2).buffer.bytes.getD i 0
        = ((G.next (G.next (G.jump (G.seed 314159265 1618033989 g))).2).1 >>> (8 * i)) &&& 0xFF := by
    intro i hi
    have t := dev_read_getD G (session1_read8 G env g b1).st b2 4 c2 i (by simpa using hi)
    rw [g2] at t
    exact t
  have v2 : client_value (session1_read4 G env g b1 b2).buffer.bytes
      (session1_read4 G env g b1 b2).ret = (G.next (G.next (G.jump (G.seed 314159265 1618033989 g))).2).1 % 2 ^ 32 := by
    have t := dev_read_client_value G (session1_read8 G env g b1).st b2 4 c2
    rw [g2] at t
    unfold session1_read4
    rw [t]
    rfl
  have d3 : ∀ i, i < 8 →
      (session2_read8 G env g b1 b2 b3).buffer.bytes.getD i 0
        = ((G.next (G.jump (G.next (G.next (G.jump (G.seed 314159265 1618033989 g))).2).2)).1 >>> (8 * i)) &&& 0xFF := by
    intro i hi
    have t := dev_read_getD G (session2_open G env g b1 b2).st b3 8 c3 i (by simpa using hi)
    rw [g5] at t
    exact t
  have v3 : client_value (session2_read8 G env g b1 b2 b3).buffer.bytes
      (session2_read8 G env g b1 b2 b3).ret = (G.next (G.jump (G.next (G.next (G.jump (G.seed 314159265 1618033989 g))).2).2)).1 := by
    have t := dev_read_client_value G (session2_open G env g b1 b2).st b3 8 c3
    rw [g5] at t
    unfold session2_read8
    rw [t]
    exact Nat.mod_eq_of_lt (G.next_lt _)
  exact ⟨ir, by rw [s0], o1.1, r1, d1, v1, b1e, r2, d2, v2, b2e, rfl, o2.1, r3, d3, v3, b3e⟩

/-- The hypotheses of `end_to_end_scenario` hold for the sample registration
outcomes and writable buffers; there the first read delivers the bytes of `V1`
least significant first and the second the low 4 bytes of `V2`. -/
theorem end_to_end_scenario_witness :
    (xoro_init sample_generator sample_env (module_loaded (0, 0))).ret = 0 ∧
    (after_init sample_generator sample_env (0, 0)).gen
      = sample_generator.seed 314159265 1618033989 (0, 0) ∧
    (session1_read8 sample_generator sample_env (0, 0) sample_buffer).ret = 8 ∧
    (∀ i, i < 8 →
      (session1_read8 sample_generator sample_env (0, 0) sample_buffer).buffer.bytes.getD i 0
        = ((sample_generator.next (sample_generator.jump (sample_generator.seed 314159265 1618033989 (0, 0)))).1 >>> (8 * i)) &&& 0xFF) ∧
    (session1_read4 sample_generator sample_env (0, 0) sample_buffer sample_buffer).ret = 4 ∧
    (∀ i, i < 4 →
      (session1_read4 sample_generator sample_env (0, 0) sample_buffer
          sample_buffer).buffer.bytes.getD i 0
        = ((sample_generator.next (sample_generator.next (sample_generator.jump (sample_generator.seed 314159265 1618033989 (0, 0)))).2).1
            >>> (8 * i)) &&& 0xFF) ∧
    client_value
        (session1_read4 sample_generator sample_env (0, 0) sample_buffer
          sample_buffer).buffer.bytes
        (session1_read4 sample_generator sample_env (0, 0) sample_buffer sample_buffer).ret
      = (sample_generator.next (sample_generator.next (sample_generator.jump (sample_generator.seed 314159265 1618033989 (0, 0)))).2).1
          % 2 ^ 32 ∧
    (session2_read8 sample_generator sample_env (0, 0) sample_buffer sample_buffer
      sample_buffer).ret = 8 :=
  have t := end_to_end_scenario sample_generator sample_env (0, 0) sample_buffer sample_buffer
    sample_buffer (by decide) (by decide) (by decide) (by decide) (by decide) (by decide)
  ⟨t.1, t.2.1, t.2.2.2.1, t.2.2.2.2.1, t.2.2.2.2.2.2.2.1, t.2.2.2.2.2.2.2.2.1,
    t.2.2.2.2.2.2.2.2.2.1, t.2.2.2.2.2.2.2.2.2.2.2.2.2.1⟩

theorem run_events_held {σ : Type} (G : Xoroshiro σ) (cs : List Call) :
    ∀ (files : Nat) (st : State σ),
      ((files = 0 ∧ st.lock = Lock.Free) ∨ (files = 1 ∧ st.lock = Lock.Held)) →
      file_discipline G files st cs = true →
      ∀ e, e ∈ (run G cs st).1 → e.lock = Lock.Held := by
  induction cs with
  | nil =>
    intro files st _ _ e he
    simp [run] at he
  | cons c cs ih =>
    intro files st inv hd e he
    cases c with
    | openDev =>
      simp only [file_discipline] at hd
      simp only [run, List.mem_append] at he
      rcases inv with ⟨hf, hl⟩ | ⟨hf, hl⟩
      · obtain ⟨r, s, ev⟩ := dev_open_of_free G st hl
        rw [r] at hd
        simp only [if_true] at hd
        rcases he with he | he
        · rw [ev] at he
          simp only [List.mem_singleton] at he
          rw [he]
        · refine ih (files + 1) _ (Or.inr ⟨by omega, ?_⟩) hd e he
          rw [s]
      · obtain ⟨r, s, ev⟩ := dev_open_of_held G st hl
        have hne : ¬ ((dev_open G st).ret = 0) := by
          rw [r]
          decide
        rw [if_neg hne] at hd
        rcases he with he | he
        · rw [ev] at he
          simp at he
        · refine ih files _ (Or.inr ⟨hf, ?_⟩) hd e he
          rw [s]
          exact hl
    | readDev buffer len =>
      simp only [file_discipline, Bool.and_eq_true, decide_eq_true_eq] at hd
      simp only [run, List.mem_append] at he
      rcases inv with ⟨hf, hl⟩ | ⟨hf, hl⟩
      · omega
      · rcases he with he | he
        · rw [dev_read_events] at he
          simp only [List.mem_singleton] at he
          rw [he]
          exact hl
        · refine ih files _ (Or.inr ⟨hf, ?_⟩) hd.2 e he
          rw [dev_read_st]
          exact hl
    | releaseDev =>
      simp only [file_discipline, Bool.and_eq_true, decide_eq_true_eq] at hd
      simp only [run, List.mem_append] at he
      rcases inv with ⟨hf, hl⟩ | ⟨hf, hl⟩
      · omega
      · rcases he with he | he
        · simp [dev_release] at he
        · exact ih (files - 1) _ (Or.inl ⟨by omega, rfl⟩) hd.2 e he

/-- C9 as stated fails: right after a successful initialisation the lock is
free, and the one-call sequence `dev_read` makes a `next()` call with the lock
free that changes the generator state. -/
theorem read_without_open_mutates :
    sample_state = (xoro_init sample_generator sample_env (module_loaded (0, 0))).st ∧
    sample_state.lock = Lock.Free ∧
    (run sample_generator [Call.readDev sample_buffer 8] sample_state).1
      = [{ call := GenCall.next, lock := Lock.Free }] ∧
    (run sample_generator [Call.readDev sample_buffer 8] sample_state).2.gen
      ≠ sample_state.gen := by
  refine ⟨?_, rfl, rfl, by decide⟩
  simp [sample_state, xoro_init, sample_env, module_loaded, IS_ERR, MAX_ERRNO, mutex_init,
    sample_generator]

/-- C9 (amended): for every sequence of `dev_open` / `dev_read` / `dev_release`
calls that starts with the lock free and no file open and in which `dev_read`
and `dev_release` are called only on an open file (after a `dev_open` that
returned 0 and before its `dev_release`), every generator call, the `jump()` of
`dev_open` and the `next()` of `dev_read`, is made while the lock is held.
`dev_read` itself never looks at the lock. -/
theorem generator_calls_under_lock {σ : Type} (G : Xoroshiro σ) (st : State σ)
    (cs : List Call) (h : st.lock = Lock.Free) (hd : file_discipline G 0 st cs = true) :
    ∀ e, e ∈ (run G cs st).1 → e.lock = Lock.Held :=
  run_events_held G cs 0 st (Or.inl ⟨rfl, h⟩) hd

/-- A disciplined sequence with two sessions and a refused open, to which
`generator_calls_under_lock` applies. -/
theorem generator_calls_under_lock_witness :
    sample_state.lock = Lock.Free ∧
    file_discipline sample_generator 0 sample_state
      [Call.openDev, Call.readDev sample_buffer 8, Call.openDev, Call.readDev sample_buffer 4,
       Call.releaseDev, Call.openDev, Call.readDev sample_buffer 8, Call.releaseDev] = true ∧
    (run sample_generator
      [Call.openDev, Call.readDev sample_buffer 8, Call.openDev, Call.readDev sample_buffer 4,
       Call.releaseDev, Call.openDev, Call.readDev sample_buffer 8, Call.releaseDev]
      sample_state).1.all (fun e => decide (e.lock = Lock.Held)) = true :=
  ⟨rfl, by decide,
    List.all_eq_true.2 (fun e he => decide_eq_true
      (generator_calls_under_lock sample_generator sample_state
        [Call.openDev, Call.readDev sample_buffer 8, Call.openDev,
         Call.readDev sample_buffer 4, Call.releaseDev, Call.openDev,
         Call.readDev sample_buffer 8, Call.releaseDev]
        rfl (by decide) e he))⟩

theorem is_err_range (p : Nat) (hp : p < 2 ^ 64) (h : IS_ERR p = true) :
    int_wrap (PTR_ERR p) = PTR_ERR p ∧ PTR_ERR p = (p : Int) - 2 ^ 64 ∧
    -4095 ≤ PTR_ERR p ∧ PTR_ERR p < 0 := by
  simp only [IS_ERR, MAX_ERRNO, decide_eq_true_eq] at h
  have h63 : ¬ (p < 2 ^ 63) := by omega
  have e : PTR_ERR p = (p : Int) - 2 ^ 64 := by
    simp only [PTR_ERR, long_of_bits, if_neg h63]
  refine ⟨?_, e, ?_, ?_⟩
  · rw [e]
    unfold int_wrap
    omega
  · rw [e]; omega
  · rw [e]; omega

/-- C10: in `xoro_init`, (1) if `register_chrdev` fails (returns a negative
`int`) the function returns that value, non-zero, having released nothing;
(2) if `class_create` fails (`IS_ERR`) it returns the error code carried by the
pointer, between -4095 and -1, after `unregister_chrdev` of the major just
obtained; (3) if `device_create` fails it returns the error code carried by
that pointer after `class_destroy` of the class and then `unregister_chrdev`;
in all three cases the generator is not seeded and its state is untouched;
(4) if all three succeed it returns 0, releases nothing, initialises the mutex
and seeds the generator exactly once with (314159265, 1618033989), arguments
that are not both zero. -/
theorem xoro_init_backout {σ : Type} (G : Xoroshiro σ) (env : InitEnv) (st : State σ)
    (hcls : env.class_create < 2 ^ 64) (hdev : env.device_create < 2 ^ 64) :
    (env.register_chrdev < 0 →
      (xoro_init G env st).ret = env.register_chrdev ∧
      (xoro_init G env st).ret ≠ 0 ∧
      (xoro_init G env st).calls = [KCall.register_chrdev] ∧
      (xoro_init G env st).st.gen = st.gen) ∧
    (0 ≤ env.register_chrdev → IS_ERR env.class_create = true →
      (xoro_init G env st).ret = PTR_ERR env.class_create ∧
      (xoro_init G env st).ret = (env.class_create : Int) - 2 ^ 64 ∧
      -4095 ≤ (xoro_init G env st).ret ∧ (xoro_init G env st).ret < 0 ∧
      (xoro_init G env st).calls
        = [KCall.register_chrdev, KCall.class_create,
           KCall.unregister_chrdev env.register_chrdev] ∧
      (xoro_init G env st).st.gen = st.gen) ∧
    (0 ≤ env.register_chrdev → IS_ERR env.class_create = false →
      IS_ERR env.device_create = true →
      (xoro_init G env st).ret = PTR_ERR env.device_create ∧
      (xoro_init G env st).ret = (env.device_create : Int) - 2 ^ 64 ∧
      -4095 ≤ (xoro_init G env st).ret ∧ (xoro_init G env st).ret < 0 ∧
      (xoro_init G env st).calls
        = [KCall.register_chrdev, KCall.class_create,
           KCall.device_create env.class_create env.register_chrdev,
           KCall.class_destroy env.class_create,
           KCall.unregister_chrdev env.register_chrdev] ∧
      (xoro_init G env st).st.gen = st.gen) ∧
    (0 ≤ env.register_chrdev → IS_ERR env.class_create = false →
      IS_ERR env.device_create = false →
      (xoro_init G env st).ret = 0 ∧
      (xoro_init G env st).calls
        = [KCall.register_chrdev, KCall.class_create,
           KCall.device_create env.class_create env.register_chrdev,
           KCall.mutex_init, KCall.seed 314159265 1618033989] ∧
      (xoro_init G env st).st.gen = G.seed 314159265 1618033989 st.gen ∧
      (xoro_init G env st).st.lock = Lock.Free ∧
      (∀ a b, KCall.seed a b ∈ (xoro_init G env st).calls → seed_precondition a b)) := by
  refine ⟨?_, ?_, ?_, ?_⟩
  · intro h
    have hne : env.register_chrdev ≠ 0 := by omega
    simp [xoro_init, h, hne]
  · intro h1 h2
    have h1n : ¬ (env.register_chrdev < 0) := by omega
    obtain ⟨e1, e2, e3, e4⟩ := is_err_range _ hcls h2
    have hr : (xoro_init G env st).ret = PTR_ERR env.class_create := by
      simp [xoro_init, h1n, h2, e1]
    refine ⟨hr, by rw [hr]; exact e2, by rw [hr]; exact e3, by rw [hr]; exact e4, ?_, ?_⟩
    · simp [xoro_init, h1n, h2]
    · simp [xoro_init, h1n, h2]
  · intro h1 h2 h3
    have h1n : ¬ (env.register_chrdev < 0) := by omega
    obtain ⟨e1, e2, e3, e4⟩ := is_err_range _ hdev h3
    have hr : (xoro_init G env st).ret = PTR_ERR env.device_create := by
      simp [xoro_init, h1n, h2, h3, e1]
    refine ⟨hr, by rw [hr]; exact e2, by rw [hr]; exact e3, by rw [hr]; exact e4, ?_, ?_⟩
    · simp [xoro_init, h1n, h2, h3]
    · simp [xoro_init, h1n, h2, h3]
  · intro h1 h2 h3
    obtain ⟨r, s, c⟩ := after_init_of_success G env st h1 h2 h3
    refine ⟨r, c, by rw [s], by rw [s], ?_⟩
    intro a b hab
    rw [c] at hab
    simp at hab
    obtain ⟨ha, hb⟩ := hab
    subst ha
    left
    decide

/-- The four cases of `xoro_init_backout`, each at registration outcomes that
reach it. -/
theorem xoro_init_backout_witness :
    ((xoro_init sample_generator sample_env_no_major (module_loaded (0, 0))).ret = -16 ∧
      (xoro_init sample_generator sample_env_no_major (module_loaded (0, 0))).calls
        = [KCall.register_chrdev]) ∧
    ((xoro_init sample_generator sample_env_no_class (module_loaded (0, 0))).ret = -12 ∧
      (xoro_init sample_generator sample_env_no_class (module_loaded (0, 0))).calls
        = [KCall.register_chrdev, KCall.class_create, KCall.unregister_chrdev 240]) ∧
    ((xoro_init sample_generator sample_env_no_device (module_loaded (0, 0))).ret = -12 ∧
      (xoro_init sample_generator sample_env_no_device (module_loaded (0, 0))).calls
        = [KCall.register_chrdev, KCall.class_create,
           KCall.device_create 0xffff888000100000 240,
           KCall.class_destroy 0xffff888000100000, KCall.unregister_chrdev 240]) ∧
    ((xoro_init sample_generator sample_env (module_loaded (0, 0))).ret = 0 ∧
      (xoro_init sample_generator sample_env (module_loaded (0, 0))).st.gen
        = (314159265, 1618033989)) :=
  have t1 := (xoro_init_backout sample_generator sample_env_no_major (module_loaded (0, 0))
    (by decide) (by decide)).1 (by decide)
  have t2 := (xoro_init_backout sample_generator sample_env_no_class (module_loaded (0, 0))
    (by decide) (by decide)).2.1 (by decide) (by decide)
  have t3 := (xoro_init_backout sample_generator sample_env_no_device (module_loaded (0, 0))
    (by decide) (by decide)).2.2.1 (by decide) (by decide) (by decide)
  have t4 := (xoro_init_backout sample_generator sample_env (module_loaded (0, 0))
    (by decide) (by decide)).2.2.2 (by decide) (by decide) (by decide)
  ⟨⟨t1.1, t1.2.2.1⟩, ⟨t2.2.1, t2.2.2.2.2.1⟩, ⟨t3.2.1, t3.2.2.2.2.1⟩, ⟨t4.1, t4.2.2.1⟩⟩

end LkmXoro
